import Mathlib

/-!
# hostedtsdb: the batching publisher (`hostedtsdb/pool.go`, `hostedtsdb/hostedtsdb.go`)

A shallow embedding of the Go package `hostedtsdb`.

* Go values of pointer type `*Tsdb` are addresses into a heap of connections
  (`TsdbPool.heap`); a `*schema.MetricData` is an `Option MetricData`, `none`
  being the nil pointer.
* Library calls whose code is outside the repository (the gob decoder,
  `url.Parse`, `MetricData.SetId`, `msg.CreateMsg`, `msg.CreateProbeEventMsg`,
  the HTTP round trip) are parameters of the functions that call them.
* `float64` values are kept as the conversion that produced them
  (`Float64`), so no floating-point rounding is modelled.
* Goroutines, the mutex and the two channels of a connection are a step
  relation (`step`) on `Sys`; the sequential functions (`Tsdb.Add`,
  `Tsdb.Flush`, ...) describe one uninterrupted call.
* The argument `&m` of `go sendEvent(tsdb, orgId, &m)` is a pointer to the
  loop variable of `Publish`: `sendEvent` takes what each of its
  dereferences finds, and `Spawn.sees` says which iterations of the loop a
  goroutine may read from.
-/

namespace Hostedtsdb

/-! ## Time (`time` package) -/

/-- Go `time.Duration`: a count of nanoseconds (an `Int` throughout). -/
abbrev Duration := Int

/-- Go `time.Time`, as the number of nanoseconds since the Unix epoch. -/
structure Time where
  nsec : Int
deriving DecidableEq, Repr

def Second : Int := 1000000000

def Minute : Int := 60 * Second

def maxDuration : Int := 2 ^ 63 - 1

def minDuration : Int := -(2 ^ 63)

/-- The zero value of `time.Time`: January 1, year 1, 00:00:00 UTC. -/
def zeroTime : Time := ⟨-62135596800 * Second⟩

/-- Go `t.Sub(u)`: the difference, saturated to the range of `Duration`. -/
def Time.Sub (t u : Time) : Int :=
  if t.nsec - u.nsec > maxDuration then maxDuration
  else if t.nsec - u.nsec < minDuration then minDuration
  else t.nsec - u.nsec

/-- Go `time.Since(t)` evaluated when the clock reads `now`. -/
def Since (now t : Time) : Int := now.Sub t

/-- Two's-complement wrap of an integer to `int64`. -/
def toInt64 (x : Int) : Int := (x + 2 ^ 63) % 2 ^ 64 - 2 ^ 63

/-- Go `t.UnixNano()`. -/
def Time.UnixNano (t : Time) : Int := toInt64 t.nsec

/-- Go `t.Unix()`: whole seconds since the epoch. -/
def Time.Unix (t : Time) : Int := t.nsec / Second

/-! ## Data model -/

abbrev Bytes := List Nat

/-- Go `*url.URL`, identified by what `u.String()` returns. -/
structure URL where
  String : String
deriving DecidableEq, Repr

/-- Go `float64` value, written as the conversion that produced it:
`float64(i)` of an integer, `float64(x)` of a `float32` with bit pattern
`bits`, or a `float64` with bit pattern `bits`. -/
inductive Float64 where
  | ofInt (i : Int)
  | ofFloat32 (bits : Nat)
  | ofBits (bits : Nat)
deriving DecidableEq, Repr

/-- Go `schema.MetricData`. -/
structure MetricData where
  Id : String
  OrgId : Int
  Name : String
  Interval : Int
  Value : Float64
  Time : Int
  TargetType : String
  Unit : String
  Tags : List String
deriving DecidableEq, Repr

/-- Go `schema.ProbeEvent`. -/
structure ProbeEvent where
  OrgId : Int
  EventType : String
  Severity : String
  Source : String
  Timestamp : Int
  Message : String
  Tags : List (String × String)
deriving DecidableEq, Repr

/-- Go channel value of type `chan struct{}`: the nil channel, or an
unbuffered channel made by `make(chan struct{})`. -/
inductive Chan where
  | nil
  | made
deriving DecidableEq, Repr

/-- Go `Tsdb` (the embedded `sync.Mutex` is `Sys.mu`). -/
structure Tsdb where
  Url : URL
  ApiKey : String
  Metrics : List (Option MetricData)
  triggerFlush : Chan
  LastFlush : Time
  closeChan : Chan
deriving DecidableEq, Repr

def maxMetricsPerPayload : Nat := 3000

/-- Go `NewTsdb` (pool.go:68-77). The fields the composite literal does not
name keep their zero value: `LastFlush` is the zero time and `closeChan` is
the nil channel. -/
def NewTsdb (u : URL) (apiKey : String) : Tsdb :=
  { Metrics := []
    triggerFlush := Chan.made
    Url := u
    ApiKey := apiKey
    LastFlush := zeroTime
    closeChan := Chan.nil }

/-- Go `(*Tsdb).Add` (pool.go:79-86), one uninterrupted call: the connection
after the append, and whether the call sends on `triggerFlush`. -/
def Tsdb.Add (t : Tsdb) (metrics : List (Option MetricData)) : Tsdb × Bool :=
  let t1 := { t with Metrics := t.Metrics ++ metrics }
  (t1, decide (t1.Metrics.length > maxMetricsPerPayload))

/-- Go `(*Tsdb).Stale` (pool.go:88-93) when the clock reads `now`. -/
def Tsdb.Stale (t : Tsdb) (now : Time) : Bool :=
  decide (Since now t.LastFlush > Minute * 30)

/-! ## Delivery -/

/-- What `client.Do(req)` gives back: a transport error, or a response with
its status code and body. -/
inductive HttpResult where
  | transportError (msg : String)
  | response (status : Nat) (body : String)
deriving DecidableEq, Repr

/-- The request `PostData` builds. -/
structure Request where
  method : String
  url : String
  contentType : String
  authorization : String
  body : Bytes
deriving DecidableEq, Repr

/-- The request of Go `(*Tsdb).PostData` (pool.go:144-147). -/
def Tsdb.request (t : Tsdb) (path : String) (body : Bytes) : Request :=
  { method := "POST"
    url := t.Url.String ++ path
    contentType := "rt-metric-binary"
    authorization := "Bearer " ++ t.ApiKey
    body := body }

/-- Go `(*Tsdb).PostData` (pool.go:143-160), given the outcome `r` of the
HTTP round trip: the returned error, `none` for nil. -/
def Tsdb.PostData (_t : Tsdb) (_path : String) (_body : Bytes) (r : HttpResult) : Option String :=
  match r with
  | .transportError msg => some msg
  | .response status respBody =>
    if status != 200 then
      some ("Posting data failed. " ++ toString status ++ " - " ++ respBody)
    else none

/-- Observable actions of a call, in program order. -/
inductive Effect where
  | post (req : Request)
  | sleep (d : Duration)
  | logDebug (msg : String)
  | logWarn (msg : String)
  | logError (msg : String)
deriving DecidableEq, Repr

/-- The retry loop `for !sent { ... }` of `Flush` (pool.go:114-122) and of
`sendEvent` (pool.go:189-197). `rs` holds the outcomes of the successive
HTTP round trips; the result is the trace and whether the loop has ended
(`false`: every listed round trip was used and the loop is still retrying). -/
def retryPost (t : Tsdb) (path : String) (body : Bytes) : List HttpResult → List Effect × Bool
  | [] => ([], false)
  | r :: rs =>
    match t.PostData path body r with
    | some err =>
      let rest := retryPost t path body rs
      (Effect.post (t.request path body) :: Effect.logError err :: Effect.sleep Second :: rest.1,
        rest.2)
    | none => ([Effect.post (t.request path body)], true)

/-- Wire formats of `msg` (schema.v1/msg). -/
inductive Format where
  | FormatMetricDataArrayJson
  | FormatMetricDataArrayMsgp
  | FormatProbeEventJson
  | FormatProbeEventMsgp
deriving DecidableEq, Repr

/-- The locked section of Go `(*Tsdb).Flush` (pool.go:96-105) at clock reading
`now`: `none` when the buffer is empty, else the connection with `LastFlush`
set and the buffer truncated, and the copy of the buffered entries. -/
def Tsdb.take (t : Tsdb) (now : Time) : Option (Tsdb × List (Option MetricData)) :=
  if t.Metrics.length == 0 then none
  else some ({ t with LastFlush := now, Metrics := [] }, t.Metrics)

/-- Outcome of one call of `Flush`. -/
structure FlushResult where
  t : Tsdb
  trace : List Effect
  returned : Bool
deriving DecidableEq, Repr

/-- Go `(*Tsdb).Flush` (pool.go:95-123), one uninterrupted call at clock
reading `now`, with `rs` the outcomes of the successive HTTP round trips. -/
def Tsdb.Flush (CreateMsg : List (Option MetricData) → Int → Format → Except String Bytes)
    (t : Tsdb) (now : Time) (rs : List HttpResult) : FlushResult :=
  match t.take now with
  | none => { t := t, trace := [], returned := true }
  | some (t1, metrics) =>
    let dbg := Effect.logDebug ("writing metrics to API count " ++ toString metrics.length)
    let id := t1.LastFlush.UnixNano
    match CreateMsg metrics id Format.FormatMetricDataArrayMsgp with
    | .error _ =>
      { t := t1
        trace := [dbg, Effect.logError "unable to convert metrics to MetricDataArrayMsgp."]
        returned := true }
    | .ok body =>
      let loop := retryPost t1 "metrics" body rs
      { t := t1, trace := dbg :: loop.1, returned := loop.2 }

/-- The `PostData` calls of a trace, in order. -/
def posts : List Effect → List Request
  | [] => []
  | Effect.post req :: es => req :: posts es
  | _ :: es => posts es

/-- The sleeps of a trace, in order. -/
def sleeps : List Effect → List Duration
  | [] => []
  | Effect.sleep d :: es => d :: sleeps es
  | _ :: es => sleeps es

/-! ## Connection pool -/

/-- Go `TsdbPool`: the map `Pool` from key to `*Tsdb`, and the heap the
pointers refer to (a pointer is an index into `heap`). -/
structure TsdbPool where
  Pool : List (String × Nat)
  heap : List Tsdb
deriving DecidableEq, Repr

/-- Go `NewTsdbPool` (pool.go:24-30): the empty map. -/
def NewTsdbPool : TsdbPool := { Pool := [], heap := [] }

/-- Go `(*TsdbPool).Get` (pool.go:46-56): the pool afterwards and the
returned pointer. -/
def TsdbPool.Get (p : TsdbPool) (u : URL) (apiKey : String) : TsdbPool × Nat :=
  let key := u.String ++ apiKey
  match p.Pool.lookup key with
  | some t => (p, t)
  | none =>
    let t := p.heap.length
    ({ Pool := (key, t) :: p.Pool, heap := p.heap ++ [NewTsdb u apiKey] }, t)

/-- The pool states `Get` produces: every pointer in the map refers to an
allocated connection, and no connection is registered twice. -/
def TsdbPool.wf (p : TsdbPool) : Prop :=
  (∀ k c, (k, c) ∈ p.Pool → c < p.heap.length) ∧ (p.Pool.map Prod.snd).Nodup

/-! ## Inbound records (`plugin.MetricType`) -/

/-- The dynamic value `m.Data()` of type `interface{}`: nil, or a value of
one of the named Go types, or a value of any other type (`other`, with the
type name `%T` prints). -/
inductive RawData where
  | nil
  | string (s : String)
  | int (v : Int)
  | int8 (v : Int)
  | int16 (v : Int)
  | int32 (v : Int)
  | int64 (v : Int)
  | uint (v : Nat)
  | uint8 (v : Nat)
  | uint16 (v : Nat)
  | uint32 (v : Nat)
  | uint64 (v : Nat)
  | float32 (bits : Nat)
  | float64 (bits : Nat)
  | bool (b : Bool)
  | other (typeName : String)
deriving DecidableEq, Repr

/-- What `fmt.Sprintf("%T", rawData)` prints. -/
def RawData.typeName : RawData → String
  | .nil => "<nil>"
  | .string _ => "string"
  | .int _ => "int"
  | .int8 _ => "int8"
  | .int16 _ => "int16"
  | .int32 _ => "int32"
  | .int64 _ => "int64"
  | .uint _ => "uint"
  | .uint8 _ => "uint8"
  | .uint16 _ => "uint16"
  | .uint32 _ => "uint32"
  | .uint64 _ => "uint64"
  | .float32 _ => "float32"
  | .float64 _ => "float64"
  | .bool _ => "bool"
  | .other n => n

/-- Go `plugin.MetricType`, through the accessors the package calls:
`Namespace().Strings()`, `Tags()` (in the iteration order of the map),
`Data()` and `Timestamp()`. -/
structure MetricType where
  Namespace : List String
  Tags : List (String × String)
  Data : RawData
  Timestamp : Time
deriving DecidableEq, Repr

/-- Go `m.Namespace().Key()`: the segments joined with a dot. -/
def MetricType.Key (m : MetricType) : String := ".".intercalate m.Namespace

/-- The outcome of the type switch of `Publish` (hostedtsdb.go:110-148) for
one record: `continue` without data, `continue` after starting `sendEvent`,
a value, or the return of the unknown-data-type error. -/
inductive Switch where
  | skip
  | event
  | value (v : Float64)
  | unknown (err : String)
deriving DecidableEq, Repr

/-- The type switch of `Publish` (hostedtsdb.go:110-148). -/
def typeSwitch : RawData → Switch
  | .nil => .skip
  | .string _ => .event
  | .int v => .value (.ofInt v)
  | .int8 v => .value (.ofInt v)
  | .int16 v => .value (.ofInt v)
  | .int32 v => .value (.ofInt v)
  | .int64 v => .value (.ofInt v)
  | .uint8 v => .value (.ofInt v)
  | .uint16 v => .value (.ofInt v)
  | .uint32 v => .value (.ofInt v)
  | .uint64 v => .value (.ofInt v)
  | .float32 b => .value (.ofFloat32 b)
  | .float64 b => .value (.ofBits b)
  | .bool b => .value (if b then .ofInt 1 else .ofInt 0)
  | rawData => .unknown ("unknown data type: " ++ rawData.typeName)

/-- The payloads for which the type switch takes its `default` branch. -/
def RawData.unsupported (rawData : RawData) : Bool :=
  match typeSwitch rawData with
  | .unknown _ => true
  | _ => false

/-- The values of the configuration map `Publish` reads. -/
structure Config where
  tsdbUrl : String
  apiKey : String
  interval : Int
  orgId : Int
  prefix_ : String
deriving DecidableEq, Repr

/-- The loop over `m.Tags()` (hostedtsdb.go:150-162): the generic tags, the
target type and the unit. -/
def tagLoop : List (String × String) → List String × String × String →
    List String × String × String
  | [], acc => acc
  | (k, v) :: rest, (tags, targetType, unit) =>
    if k = "targetType" then tagLoop rest (tags, v, unit)
    else if k = "unit" then tagLoop rest (tags, targetType, v)
    else tagLoop rest (tags ++ [k ++ ":" ++ v], targetType, unit)

/-- The Data Point `Publish` builds for a record with value `value`
(hostedtsdb.go:150-181); `SetId` is `(*schema.MetricData).SetId`. -/
def dataPoint (SetId : MetricData → MetricData) (cfg : Config) (m : MetricType)
    (value : Float64) : MetricData :=
  let r := tagLoop m.Tags ([], "gauge", "")
  let name := if cfg.prefix_ != "" then cfg.prefix_ ++ "." ++ m.Key else m.Key
  SetId
    { Id := ""
      OrgId := cfg.orgId
      Name := name
      Interval := cfg.interval
      Value := value
      Time := m.Timestamp.Unix
      TargetType := r.2.1
      Unit := r.2.2
      Tags := r.1 }

/-- One `go sendEvent(tsdb, orgId, &m)` statement: the connection, the
organisation, and the iteration of the loop that starts the goroutine. The
argument `&m` is the address of the one variable `m` of the `range` loop
(hostedtsdb.go:107), the same for every goroutine; what a goroutine finds
there depends on how far the loop has gone when it reads (`Spawn.sees`). -/
structure Spawn where
  tsdb : Nat
  orgId : Int
  iteration : Nat
deriving DecidableEq, Repr

/-- State of the loop of `Publish` after some iterations: the error it
returned with (if it did), `metricsArray`, the goroutines started, and the
number of iterations begun (the loop variable `m` holds the record of the
last of them from then on). -/
structure LoopState where
  err : Option String
  metricsArray : List (Option MetricData)
  spawned : List Spawn
  iterations : Nat
deriving DecidableEq, Repr

/-- The loop `for i, m := range metrics` of `Publish` (hostedtsdb.go:107-183),
from index `i` on. -/
def publishLoop (SetId : MetricData → MetricData) (cfg : Config) (tsdb : Nat) :
    Nat → List MetricType → LoopState → LoopState
  | _, [], st => st
  | i, m :: ms, st =>
    match typeSwitch m.Data with
    | .skip => publishLoop SetId cfg tsdb (i + 1) ms { st with iterations := i + 1 }
    | .event =>
      publishLoop SetId cfg tsdb (i + 1) ms
        { st with
          spawned := st.spawned ++ [{ tsdb := tsdb, orgId := cfg.orgId, iteration := i }]
          iterations := i + 1 }
    | .unknown e => { st with err := some e, iterations := i + 1 }
    | .value v =>
      publishLoop SetId cfg tsdb (i + 1) ms
        { st with
          metricsArray := st.metricsArray.set i (some (dataPoint SetId cfg m v))
          iterations := i + 1 }

/-- The record the loop variable `m` of `Publish` holds while iteration `j`
runs, and after the loop when `j` is its last iteration. -/
def loopVar (metrics : List MetricType) (j : Nat) : MetricType :=
  metrics.getD j { Namespace := [], Tags := [], Data := .nil, Timestamp := ⟨0⟩ }

/-- The schedules of a goroutine started by `Publish`: `sendEvent`
dereferences `&m` three times (`Namespace()`, `Data()`, `Tags()`,
pool.go:163,180,181), and at its `k`-th dereference the loop is in
iteration `j k` (or has ended with it), not before the iteration that
started the goroutine and not beyond the iterations the loop ran. -/
def Spawn.sees (sp : Spawn) (iterations : Nat) (j : Nat → Nat) : Bool :=
  decide (sp.iteration ≤ j 0) && decide (j 0 ≤ j 1) && decide (j 1 ≤ j 2) &&
    decide (j 2 < iterations)

/-- What the three dereferences of `&m` find under the schedule `j`. -/
def derefs (metrics : List MetricType) (j : Nat → Nat) (k : Nat) : MetricType :=
  loopVar metrics (j k)

def SnapGOBContentType : String := "snap.gob"

/-- Outcome of one call of `Publish`: the returned error (`none` for nil),
the pool afterwards, the goroutines started, the number of iterations the
loop began, and whether `Add` sent the immediate-flush signal. -/
structure PublishResult where
  err : Option String
  pool : TsdbPool
  spawned : List Spawn
  iterations : Nat
  signalled : Bool
deriving DecidableEq, Repr

/-- Go `strings.HasSuffix`. -/
def HasSuffix (s suffix : String) : Bool := suffix.data.isSuffixOf s.data

/-- The destination string of `Publish` (hostedtsdb.go:84-90). -/
def remoteOf (cfg : Config) : String :=
  let remote := if cfg.tsdbUrl = "" then "https://tsdb.raintank.io/" else cfg.tsdbUrl
  if !(HasSuffix remote "/") then remote ++ "/" else remote

/-- Go `(*HostedtsdbPublisher).Publish` (hostedtsdb.go:69-187) on the pool
`p` (the global `ConnPool`). `decode` is the gob decoder and `Parse` is
`url.Parse`. -/
def Publish (decode : Bytes → Except String (List MetricType))
    (Parse : String → Except String URL) (SetId : MetricData → MetricData)
    (p : TsdbPool) (contentType : String) (content : Bytes) (cfg : Config) : PublishResult :=
  if contentType = SnapGOBContentType then
    match decode content with
    | .error e => { err := some e, pool := p, spawned := [], iterations := 0, signalled := false }
    | .ok metrics =>
      match Parse (remoteOf cfg) with
      | .error e =>
        { err := some e, pool := p, spawned := [], iterations := 0, signalled := false }
      | .ok remoteUrl =>
        let g := p.Get remoteUrl cfg.apiKey
        let st := publishLoop SetId cfg g.2 0 metrics
          { err := none, metricsArray := List.replicate metrics.length none, spawned := [],
            iterations := 0 }
        match st.err with
        | some e =>
          { err := some e, pool := g.1, spawned := st.spawned, iterations := st.iterations,
            signalled := false }
        | none =>
          match g.1.heap.get? g.2 with
          | none =>
            { err := none, pool := g.1, spawned := st.spawned, iterations := st.iterations,
              signalled := false }
          | some t =>
            let a := t.Add st.metricsArray
            { err := none
              pool := { g.1 with heap := g.1.heap.set g.2 a.1 }
              spawned := st.spawned
              iterations := st.iterations
              signalled := a.2 }
  else
    { err := some ("Unknown content type '" ++ contentType ++ "'")
      pool := p, spawned := [], iterations := 0, signalled := false }

/-! ## Event dispatch -/

/-- Why `sendEvent` stops before it has an event. -/
inductive Abort where
  | warn (msg : String)
  | typeAssertion (msg : String)
deriving DecidableEq, Repr

/-- The checks of Go `sendEvent` and the event it builds (pool.go:163-182);
`hostname` is what `os.Hostname()` returns and `now` the clock reading.
The argument is a pointer: `m k` is the record the `k`-th dereference
finds (`m.Namespace()`, then `m.Data()`, then `m.Tags()`). -/
def probeEvent (hostname : String) (now : Time) (orgId : Int) (m : Nat → MetricType) :
    Except Abort ProbeEvent :=
  let ns := (m 0).Namespace
  if ns.length != 4 then
    .error (.warn "dropping invalid event metric. Expected namesapce to be 4 fields.")
  else if ns.getD 0 "" != "worldping" || ns.getD 1 "" != "event" then
    .error (.warn
      "dropping invalid event metric.  Metric namespace should begin with 'worldping.event'")
  else
    match (m 1).Data with
    | .string s =>
      .ok
        { OrgId := orgId
          EventType := ns.getD 2 ""
          Severity := ns.getD 3 ""
          Source := hostname
          Timestamp := now.UnixNano.tdiv 1000000
          Message := s
          Tags := (m 2).Tags }
    | d => .error (.typeAssertion ("interface conversion: interface is " ++ d.typeName ++
        ", not string"))

/-- Outcome of one call of `sendEvent`: the trace, whether the call has
ended, and whether it ended in a run-time fault. -/
structure SendResult where
  trace : List Effect
  returned : Bool
  fault : Bool
deriving DecidableEq, Repr

/-- Go `sendEvent` (pool.go:162-198); `CreateProbeEventMsg` is
`msg.CreateProbeEventMsg`, `rs` holds the outcomes of the successive HTTP
round trips, and `m k` is the record the `k`-th dereference of the pointer
`m` finds. -/
def sendEvent (CreateProbeEventMsg : ProbeEvent → Int → Format → Except String Bytes)
    (hostname : String) (now : Time) (rs : List HttpResult)
    (tsdb : Tsdb) (orgId : Int) (m : Nat → MetricType) : SendResult :=
  match probeEvent hostname now orgId m with
  | .error (.warn msg) => { trace := [Effect.logWarn msg], returned := true, fault := false }
  | .error (.typeAssertion _) => { trace := [], returned := false, fault := true }
  | .ok event =>
    match CreateProbeEventMsg event now.UnixNano Format.FormatProbeEventMsgp with
    | .error _ =>
      { trace := [Effect.logError "Unable to convert event to ProbeEventMsgp."]
        returned := true, fault := false }
    | .ok body =>
      let loop := retryPost tsdb "events" body rs
      { trace := loop.1, returned := loop.2, fault := false }

/-! ## Goroutines of one connection

The goroutine started by `NewTsdb` runs `Run`; a caller may be inside
`Add(metrics)` and the pool sweep may be inside `Close()`. Each goroutine
is at a program point; `step` executes one statement of one goroutine, or
one rendezvous of a sender and the receiving `select`. -/

/-- Program points of a caller inside `Add` (pool.go:79-86): the statement
the caller executes next. -/
inductive AddPc where
  | lock
  | append
  | send
  | unlock
  | returned
deriving DecidableEq, Repr

/-- Program points of a caller inside `Close` (pool.go:138-141). -/
inductive ClosePc where
  | sendTrigger
  | sendClose
  | returned
deriving DecidableEq, Repr

/-- Program points of the goroutine running `Run` (pool.go:125-137), the
call of `Flush` inlined: waiting in `select`, at `t.Lock()` of `Flush`,
inside the locked section, in the retry loop with the encoded body, or
returned from `Run`. -/
inductive RunPc where
  | select
  | flushLock
  | flushLocked
  | posting (body : Bytes)
  | stopped
deriving DecidableEq, Repr

/-- Who holds the mutex of the connection. -/
inductive Holder where
  | adder
  | runner
deriving DecidableEq, Repr

/-- The connection with its mutex and the goroutines working on it. -/
structure Sys where
  t : Tsdb
  mu : Option Holder
  adder : Option (AddPc × List (Option MetricData))
  closer : Option ClosePc
  runner : RunPc
deriving DecidableEq, Repr

/-- What can happen next: a statement of `Add`, a send of `Close` meeting
the `select` of `Run`, a tick of the ticker taken by the `select`, a
statement of `Flush`, or the outcome of one HTTP round trip. -/
inductive Action where
  | addLock
  | addAppend
  | addSend
  | addUnlock
  | closeSendTrigger
  | closeSendClose
  | tick
  | flushLock
  | flushTake (now : Time)
  | postResult (r : HttpResult)
deriving DecidableEq, Repr

/-- One step of the system; `none` when the action is not enabled in `s`.
A send on an unbuffered channel is enabled only when the channel is not
nil and `Run` is waiting in its `select`; `Lock` is enabled only when the
mutex is free. -/
def step (CreateMsg : List (Option MetricData) → Int → Format → Except String Bytes)
    (s : Sys) : Action → Option Sys
  | .addLock =>
    match s.adder, s.mu with
    | some (.lock, ms), none => some { s with mu := some .adder, adder := some (.append, ms) }
    | _, _ => none
  | .addAppend =>
    match s.adder with
    | some (.append, ms) =>
      let a := s.t.Add ms
      some { s with t := a.1, adder := some (if a.2 then .send else .unlock, ms) }
    | _ => none
  | .addSend =>
    match s.adder, s.runner, s.t.triggerFlush with
    | some (.send, ms), .select, .made =>
      some { s with adder := some (.unlock, ms), runner := .flushLock }
    | _, _, _ => none
  | .addUnlock =>
    match s.adder with
    | some (.unlock, ms) => some { s with mu := none, adder := some (.returned, ms) }
    | _ => none
  | .closeSendTrigger =>
    match s.closer, s.runner, s.t.triggerFlush with
    | some .sendTrigger, .select, .made =>
      some { s with closer := some .sendClose, runner := .flushLock }
    | _, _, _ => none
  | .closeSendClose =>
    match s.closer, s.runner, s.t.closeChan with
    | some .sendClose, .select, .made =>
      some { s with closer := some .returned, runner := .stopped }
    | _, _, _ => none
  | .tick =>
    match s.runner with
    | .select => some { s with runner := .flushLock }
    | _ => none
  | .flushLock =>
    match s.runner, s.mu with
    | .flushLock, none => some { s with mu := some .runner, runner := .flushLocked }
    | _, _ => none
  | .flushTake now =>
    match s.runner with
    | .flushLocked =>
      match s.t.take now with
      | none => some { s with mu := none, runner := .select }
      | some (t1, metrics) =>
        match CreateMsg metrics t1.LastFlush.UnixNano Format.FormatMetricDataArrayMsgp with
        | .error _ => some { s with t := t1, mu := none, runner := .select }
        | .ok body => some { s with t := t1, mu := none, runner := .posting body }
    | _ => none
  | .postResult r =>
    match s.runner with
    | .posting body =>
      match s.t.PostData "metrics" body r with
      | some _ => some s
      | none => some { s with runner := .select }
    | _ => none

/-- The state reached from `s` by the actions `as` in order; `none` when one
of them is not enabled where it stands. -/
def run (CreateMsg : List (Option MetricData) → Int → Format → Except String Bytes) :
    Sys → List Action → Option Sys
  | s, [] => some s
  | s, a :: as =>
    match step CreateMsg s a with
    | none => none
    | some s1 => run CreateMsg s1 as

/-- The system right after `t` was created and its `Run` goroutine reached
the `select`: the mutex free, with the given callers about to start. -/
def Sys.start (t : Tsdb) (adder : Option (List (Option MetricData))) (closing : Bool) : Sys :=
  { t := t
    mu := none
    adder := adder.map fun ms => (AddPc.lock, ms)
    closer := if closing then some ClosePc.sendTrigger else none
    runner := RunPc.select }

/-! ## Staleness -/

theorem Sub_gt_iff (now u : Time) (d : Int) (hd0 : minDuration ≤ d) (hd1 : d < maxDuration) :
    now.Sub u > d ↔ now.nsec - u.nsec > d := by
  unfold Time.Sub
  split_ifs with h1 h2
  · constructor <;> intro h <;> omega
  · constructor <;> intro h <;> omega
  · rfl

/-- C9: `Stale()` is true exactly when the time elapsed since `LastFlush` is
strictly more than 30 minutes, whatever the buffer holds: 31 minutes ago is
stale, 10 minutes ago and exactly 30 minutes ago are not, and a connection
fresh from `NewTsdb` is judged by the same test against the zero time. -/
theorem Stale_iff_elapsed_gt_30min (t : Tsdb) (now : Time) (u : URL) (apiKey : String)
    (buf : List (Option MetricData)) :
    (t.Stale now = true ↔ now.nsec - t.LastFlush.nsec > 30 * Minute) ∧
    ({ t with Metrics := buf }.Stale now = t.Stale now) ∧
    ({ t with LastFlush := ⟨now.nsec - 31 * Minute⟩ }.Stale now = true) ∧
    ({ t with LastFlush := ⟨now.nsec - 10 * Minute⟩ }.Stale now = false) ∧
    ({ t with LastFlush := ⟨now.nsec - 30 * Minute⟩ }.Stale now = false) ∧
    (NewTsdb u apiKey).LastFlush = zeroTime ∧
    ((NewTsdb u apiKey).Stale now = true ↔ now.nsec - zeroTime.nsec > 30 * Minute) := by
  have key : ∀ c : Tsdb, c.Stale now = true ↔ now.nsec - c.LastFlush.nsec > 30 * Minute := by
    intro c
    unfold Tsdb.Stale Since
    rw [decide_eq_true_iff, Sub_gt_iff now c.LastFlush (Minute * 30)
      (by unfold minDuration Minute Second; norm_num)
      (by unfold maxDuration Minute Second; norm_num)]
    rw [mul_comm]
  refine ⟨key t, rfl, ?_, ?_, ?_, rfl, key _⟩
  · rw [key]; simp only [Minute, Second]; omega
  · rw [Bool.eq_false_iff, Ne, key]; simp only [Minute, Second]; omega
  · rw [Bool.eq_false_iff, Ne, key]; simp only [Minute, Second]; omega

/-! ## Add -/

/-- C3: `Add(ps)` leaves the buffer equal to the old buffer followed by `ps`
and changes nothing else, and it sends the immediate-flush signal exactly
when the new length is strictly greater than 3000 (not at exactly 3000).
In the goroutine model, with `Run` waiting in its `select`: after `Lock`
and the append the caller stands at the send on `triggerFlush` in the
first case and at `Unlock` in the other. Above 3000 the caller cannot
unlock before the send, the send hands the signal to `Run` (which leaves
the `select` for `Flush`), and the call then returns. At 3000 or below no
send is enabled, and the call returns with `Run` still in its `select`. -/
theorem Add_appends_and_signals_above_3000
    (CreateMsg : List (Option MetricData) → Int → Format → Except String Bytes)
    (t : Tsdb) (ps : List (Option MetricData)) :
    (t.Add ps).1 = { t with Metrics := t.Metrics ++ ps } ∧
    ((t.Add ps).2 = true ↔ t.Metrics.length + ps.length > 3000) ∧
    (t.Metrics.length + ps.length = 3000 → (t.Add ps).2 = false) ∧
    run CreateMsg (Sys.start t (some ps) false) [Action.addLock, Action.addAppend] =
      some { t := { t with Metrics := t.Metrics ++ ps }
             mu := some Holder.adder
             adder := some
               (if t.Metrics.length + ps.length > 3000 then AddPc.send else AddPc.unlock, ps)
             closer := none
             runner := RunPc.select } ∧
    (t.Metrics.length + ps.length > 3000 →
      step CreateMsg
        { t := { t with Metrics := t.Metrics ++ ps }, mu := some Holder.adder,
          adder := some (AddPc.send, ps), closer := none, runner := RunPc.select }
        Action.addUnlock = none ∧
      (t.triggerFlush = Chan.made →
        run CreateMsg (Sys.start t (some ps) false)
          [Action.addLock, Action.addAppend, Action.addSend] =
          some { t := { t with Metrics := t.Metrics ++ ps }
                 mu := some Holder.adder
                 adder := some (AddPc.unlock, ps)
                 closer := none
                 runner := RunPc.flushLock } ∧
        run CreateMsg (Sys.start t (some ps) false)
          [Action.addLock, Action.addAppend, Action.addSend, Action.addUnlock] =
          some { t := { t with Metrics := t.Metrics ++ ps }
                 mu := none
                 adder := some (AddPc.returned, ps)
                 closer := none
                 runner := RunPc.flushLock })) ∧
    (t.Metrics.length + ps.length ≤ 3000 →
      step CreateMsg
        { t := { t with Metrics := t.Metrics ++ ps }, mu := some Holder.adder,
          adder := some (AddPc.unlock, ps), closer := none, runner := RunPc.select }
        Action.addSend = none ∧
      run CreateMsg (Sys.start t (some ps) false)
        [Action.addLock, Action.addAppend, Action.addUnlock] =
        some { t := { t with Metrics := t.Metrics ++ ps }
               mu := none
               adder := some (AddPc.returned, ps)
               closer := none
               runner := RunPc.select }) := by
  have h2 : (t.Add ps).2 = true ↔ t.Metrics.length + ps.length > 3000 := by
    simp [Tsdb.Add, maxMetricsPerPayload]
  refine ⟨rfl, h2, ?_, ?_, ?_, ?_⟩
  · intro h
    rw [Bool.eq_false_iff, Ne, h2]
    omega
  · simp only [run, step, Sys.start, Option.map]
    by_cases h : t.Metrics.length + ps.length > 3000
    · simp [Tsdb.Add, maxMetricsPerPayload, h]
    · simp [Tsdb.Add, maxMetricsPerPayload, h]
  · intro h
    refine ⟨rfl, fun hmade => ⟨?_, ?_⟩⟩
    · simp [run, step, Sys.start, Tsdb.Add, maxMetricsPerPayload, h, hmade]
    · simp [run, step, Sys.start, Tsdb.Add, maxMetricsPerPayload, h, hmade]
  · intro h
    have h1 : ¬ 3000 < t.Metrics.length + ps.length := by omega
    refine ⟨rfl, ?_⟩
    simp [run, step, Sys.start, Tsdb.Add, maxMetricsPerPayload, h1]

/-- C3, at a concrete input: 3001 entries added to the empty buffer of a new
connection; the send is received by `Run` and the call returns. -/
theorem Add_appends_and_signals_above_3000_witness :
    run (fun _ _ _ => .ok []) (Sys.start (NewTsdb ⟨"http://a/"⟩ "k")
        (some (List.replicate 3001 none)) false)
      [Action.addLock, Action.addAppend, Action.addSend, Action.addUnlock] =
      some { t := { NewTsdb ⟨"http://a/"⟩ "k" with
                    Metrics := (NewTsdb ⟨"http://a/"⟩ "k").Metrics ++ List.replicate 3001 none }
             mu := none
             adder := some (AddPc.returned, List.replicate 3001 none)
             closer := none
             runner := RunPc.flushLock } :=
  (((Add_appends_and_signals_above_3000 (fun _ _ _ => .ok []) (NewTsdb ⟨"http://a/"⟩ "k")
    (List.replicate 3001 none)).2.2.2.2.1
    (by simp only [NewTsdb, List.length_nil, List.length_replicate]; omega)).2 rfl).2

/-! ## Flush -/

/-- The retry loop on `n` failing round trips followed by a successful one:
it ends, after `n + 1` posts of the same request and `n` sleeps of one second. -/
theorem retryPost_fails_then_ok (t : Tsdb) (path : String) (body : Bytes)
    (fails : List HttpResult) (ok : HttpResult) (rest : List HttpResult)
    (hfail : ∀ r ∈ fails, (t.PostData path body r).isSome = true)
    (hok : t.PostData path body ok = none) :
    (retryPost t path body (fails ++ ok :: rest)).2 = true ∧
    posts (retryPost t path body (fails ++ ok :: rest)).1 =
      List.replicate (fails.length + 1) (t.request path body) ∧
    sleeps (retryPost t path body (fails ++ ok :: rest)).1 =
      List.replicate fails.length Second := by
  induction fails with
  | nil => simp [retryPost, hok, posts, sleeps]
  | cons r rs ih =>
    have hr : (t.PostData path body r).isSome = true := hfail r (List.mem_cons_self _ _)
    obtain ⟨e, he⟩ := Option.isSome_iff_exists.mp hr
    have ih1 := ih (fun x hx => hfail x (List.mem_cons_of_mem _ hx))
    have e1 : retryPost t path body ((r :: rs) ++ ok :: rest) =
        (Effect.post (t.request path body) :: Effect.logError e :: Effect.sleep Second ::
          (retryPost t path body (rs ++ ok :: rest)).1,
          (retryPost t path body (rs ++ ok :: rest)).2) := by
      simp only [List.cons_append, retryPost, he]
      rfl
    rw [e1]
    refine ⟨ih1.1, ?_, ?_⟩
    · show t.request path body :: posts (retryPost t path body (rs ++ ok :: rest)).1 = _
      rw [ih1.2.1]
      rfl
    · show Second :: sleeps (retryPost t path body (rs ++ ok :: rest)).1 = _
      rw [ih1.2.2]
      rfl

/-- C2: on a non-empty buffer whose encoding succeeds with `body`, when
`PostData` fails on the first `N = fails.length` round trips and succeeds
on the next, `Flush` returns after exactly `N + 1` posts to the `metrics`
sub-path, all with that one body (the encoding of the buffer as it stood
when `Flush` began, in order), and `N` sleeps of one second; it leaves the
buffer empty and `LastFlush` equal to the flush time. -/
theorem Flush_retries_same_batch_until_delivered
    (CreateMsg : List (Option MetricData) → Int → Format → Except String Bytes)
    (t : Tsdb) (now : Time) (body : Bytes)
    (fails : List HttpResult) (ok : HttpResult) (rest : List HttpResult)
    (hbuf : t.Metrics ≠ [])
    (henc : CreateMsg t.Metrics now.UnixNano Format.FormatMetricDataArrayMsgp = .ok body)
    (hfail : ∀ r ∈ fails, (t.PostData "metrics" body r).isSome = true)
    (hok : t.PostData "metrics" body ok = none) :
    (t.Flush CreateMsg now (fails ++ ok :: rest)).returned = true ∧
    posts (t.Flush CreateMsg now (fails ++ ok :: rest)).trace =
      List.replicate (fails.length + 1)
        { method := "POST"
          url := t.Url.String ++ "metrics"
          contentType := "rt-metric-binary"
          authorization := "Bearer " ++ t.ApiKey
          body := body } ∧
    sleeps (t.Flush CreateMsg now (fails ++ ok :: rest)).trace =
      List.replicate fails.length Second ∧
    (t.Flush CreateMsg now (fails ++ ok :: rest)).t =
      { t with Metrics := [], LastFlush := now } := by
  have hlen : (t.Metrics.length == 0) = false := by
    cases hm : t.Metrics with
    | nil => exact absurd hm hbuf
    | cons a l => rfl
  have h := retryPost_fails_then_ok { t with LastFlush := now, Metrics := [] } "metrics" body
    fails ok rest hfail hok
  simp only [Tsdb.Flush, Tsdb.take, hlen, henc, posts, Bool.false_eq_true, if_false]
  exact ⟨h.1, h.2.1, h.2.2, trivial⟩

/-- C2, at a concrete input: two buffered entries, two failed round trips
(a transport error and a 503), then a 200. -/
theorem Flush_retries_same_batch_until_delivered_witness :
    (({ Url := ⟨"http://a/"⟩, ApiKey := "k", Metrics := [none, none],
        triggerFlush := Chan.made, LastFlush := zeroTime, closeChan := Chan.nil } : Tsdb).Flush
      (fun ms _ _ => .ok [ms.length]) ⟨5⟩
      ([HttpResult.transportError "refused", HttpResult.response 503 "busy"] ++
        HttpResult.response 200 "" :: [])).returned = true := by
  refine (Flush_retries_same_batch_until_delivered (fun ms _ _ => .ok [ms.length])
    { Url := ⟨"http://a/"⟩, ApiKey := "k", Metrics := [none, none],
      triggerFlush := Chan.made, LastFlush := zeroTime, closeChan := Chan.nil } ⟨5⟩ [2]
    [HttpResult.transportError "refused", HttpResult.response 503 "busy"]
    (HttpResult.response 200 "") [] (by simp) rfl ?_ rfl).1
  intro r hr
  simp only [List.mem_cons, List.mem_singleton, List.not_mem_nil, or_false] at hr
  rcases hr with rfl | rfl <;> rfl

/-! ## Publish -/

theorem typeSwitch_unsupported (d : RawData) (h : d.unsupported = true) :
    typeSwitch d = .unknown ("unknown data type: " ++ d.typeName) := by
  cases d <;> first | rfl | (exact absurd h (by simp [RawData.unsupported, typeSwitch]))

/-- The default branch is taken by the payloads of type `uint` and of any
type the switch does not name. -/
theorem unsupported_iff (d : RawData) :
    d.unsupported = true ↔ (∃ n, d = .uint n) ∨ (∃ typeName, d = .other typeName) := by
  cases d <;> simp [RawData.unsupported, typeSwitch]

/-- A batch with an unsupported payload makes the loop return the error of
its first such record. -/
theorem publishLoop_unsupported (SetId : MetricData → MetricData) (cfg : Config) (tsdb : Nat)
    (ms : List MetricType) (hex : ∃ m ∈ ms, m.Data.unsupported = true) :
    ∀ (i : Nat) (st : LoopState), ∃ bad ∈ ms, bad.Data.unsupported = true ∧
      (publishLoop SetId cfg tsdb i ms st).err =
        some ("unknown data type: " ++ bad.Data.typeName) := by
  induction ms with
  | nil => obtain ⟨m, hm, _⟩ := hex; exact absurd hm (List.not_mem_nil m)
  | cons m ms ih =>
    intro i st
    by_cases hbad : m.Data.unsupported = true
    · refine ⟨m, List.mem_cons_self _ _, hbad, ?_⟩
      simp only [publishLoop, typeSwitch_unsupported m.Data hbad]
    · have hex1 : ∃ x ∈ ms, x.Data.unsupported = true := by
        obtain ⟨x, hx, hxb⟩ := hex
        rcases List.mem_cons.mp hx with rfl | hx1
        · exact absurd hxb hbad
        · exact ⟨x, hx1, hxb⟩
      have ih1 := ih hex1
      cases hsw : typeSwitch m.Data with
      | unknown e => simp [RawData.unsupported, hsw] at hbad
      | skip =>
        obtain ⟨bad, hb, hbb, he⟩ := ih1 (i + 1) { st with iterations := i + 1 }
        exact ⟨bad, List.mem_cons_of_mem _ hb, hbb, by simp only [publishLoop, hsw]; exact he⟩
      | event =>
        obtain ⟨bad, hb, hbb, he⟩ := ih1 (i + 1)
          { st with
            spawned := st.spawned ++ [{ tsdb := tsdb, orgId := cfg.orgId, iteration := i }]
            iterations := i + 1 }
        exact ⟨bad, List.mem_cons_of_mem _ hb, hbb, by simp only [publishLoop, hsw]; exact he⟩
      | value v =>
        obtain ⟨bad, hb, hbb, he⟩ := ih1 (i + 1)
          { st with
            metricsArray := st.metricsArray.set i (some (dataPoint SetId cfg m v))
            iterations := i + 1 }
        exact ⟨bad, List.mem_cons_of_mem _ hb, hbb, by simp only [publishLoop, hsw]; exact he⟩

theorem Get_of_lookup_some (p : TsdbPool) (u : URL) (apiKey : String) (c : Nat)
    (h : p.Pool.lookup (u.String ++ apiKey) = some c) : p.Get u apiKey = (p, c) := by
  simp only [TsdbPool.Get, h]

theorem Get_of_lookup_none (p : TsdbPool) (u : URL) (apiKey : String)
    (h : p.Pool.lookup (u.String ++ apiKey) = none) :
    p.Get u apiKey =
      ({ Pool := (u.String ++ apiKey, p.heap.length) :: p.Pool
         heap := p.heap ++ [NewTsdb u apiKey] }, p.heap.length) := by
  simp only [TsdbPool.Get, h]

/-- `Get` leaves every connection that exists untouched. -/
theorem Get_heap_get? (p : TsdbPool) (u : URL) (apiKey : String) (c : Nat) (t0 : Tsdb)
    (h : p.heap.get? c = some t0) : (p.Get u apiKey).1.heap.get? c = some t0 := by
  cases hl : p.Pool.lookup (u.String ++ apiKey) with
  | some t => rw [Get_of_lookup_some p u apiKey t hl]; exact h
  | none =>
    rw [Get_of_lookup_none p u apiKey hl]
    simp only [List.get?_eq_getElem?] at h ⊢
    have hc : c < p.heap.length := by
      by_contra hn
      rw [List.getElem?_eq_none (by omega)] at h
      exact absurd h (by simp)
    rw [List.getElem?_append_left hc]
    exact h

/-- C6: when the batch was decoded, the destination parsed, and some record
has a payload the type switch has no case for, `Publish` returns the
unknown-data-type error (naming the type of such a record) without calling
`Add`: the pool is as `Get` left it, so every connection that existed
before the call is unchanged, buffer included, a connection created by
this call has the empty buffer of `NewTsdb`, and no flush is signalled. -/
theorem Publish_unknown_type_appends_nothing
    (decode : Bytes → Except String (List MetricType))
    (Parse : String → Except String URL) (SetId : MetricData → MetricData)
    (p : TsdbPool) (content : Bytes) (cfg : Config)
    (metrics : List MetricType) (remoteUrl : URL)
    (hdec : decode content = .ok metrics)
    (hurl : Parse (remoteOf cfg) = .ok remoteUrl)
    (hex : ∃ m ∈ metrics, m.Data.unsupported = true) :
    (∃ bad ∈ metrics, bad.Data.unsupported = true ∧
      (Publish decode Parse SetId p SnapGOBContentType content cfg).err =
        some ("unknown data type: " ++ bad.Data.typeName)) ∧
    (Publish decode Parse SetId p SnapGOBContentType content cfg).pool =
      (p.Get remoteUrl cfg.apiKey).1 ∧
    (Publish decode Parse SetId p SnapGOBContentType content cfg).signalled = false ∧
    (∀ c t0, p.heap.get? c = some t0 →
      (Publish decode Parse SetId p SnapGOBContentType content cfg).pool.heap.get? c = some t0) ∧
    (p.Pool.lookup (remoteUrl.String ++ cfg.apiKey) = none →
      (Publish decode Parse SetId p SnapGOBContentType content cfg).pool.heap =
        p.heap ++ [NewTsdb remoteUrl cfg.apiKey] ∧
      (NewTsdb remoteUrl cfg.apiKey).Metrics = []) := by
  obtain ⟨bad, hb, hbb, he⟩ := publishLoop_unsupported SetId cfg
    (p.Get remoteUrl cfg.apiKey).2 metrics hex 0
    { err := none, metricsArray := List.replicate metrics.length none, spawned := [],
      iterations := 0 }
  have hP : Publish decode Parse SetId p SnapGOBContentType content cfg =
      { err := some ("unknown data type: " ++ bad.Data.typeName)
        pool := (p.Get remoteUrl cfg.apiKey).1
        spawned := (publishLoop SetId cfg (p.Get remoteUrl cfg.apiKey).2 0 metrics
          { err := none, metricsArray := List.replicate metrics.length none,
            spawned := [], iterations := 0 }).spawned
        iterations := (publishLoop SetId cfg (p.Get remoteUrl cfg.apiKey).2 0 metrics
          { err := none, metricsArray := List.replicate metrics.length none,
            spawned := [], iterations := 0 }).iterations
        signalled := false } := by
    simp only [Publish, hdec, hurl, he, if_true]
  rw [hP]
  refine ⟨⟨bad, hb, hbb, rfl⟩, rfl, rfl, fun c t0 h => Get_heap_get? p remoteUrl cfg.apiKey c t0 h,
    fun hnone => ⟨?_, rfl⟩⟩
  simp only [TsdbPool.Get, hnone]

/-- C6, at a concrete input: a supported record followed by one whose
payload is a byte slice. -/
theorem Publish_unknown_type_appends_nothing_witness :
    (Publish
      (fun _ => .ok
        [{ Namespace := ["a"], Tags := [], Data := .int 5, Timestamp := ⟨0⟩ },
         { Namespace := ["b"], Tags := [], Data := .other "[]uint8", Timestamp := ⟨0⟩ }])
      (fun s => .ok ⟨s⟩) (fun md => md) NewTsdbPool SnapGOBContentType []
      { tsdbUrl := "http://a/", apiKey := "k", interval := 10, orgId := 1,
        prefix_ := "" }).signalled = false :=
  (Publish_unknown_type_appends_nothing
    (fun _ => .ok
      [{ Namespace := ["a"], Tags := [], Data := .int 5, Timestamp := ⟨0⟩ },
       { Namespace := ["b"], Tags := [], Data := .other "[]uint8", Timestamp := ⟨0⟩ }])
    (fun s => .ok ⟨s⟩) (fun md => md) NewTsdbPool []
    { tsdbUrl := "http://a/", apiKey := "k", interval := 10, orgId := 1, prefix_ := "" }
    [{ Namespace := ["a"], Tags := [], Data := .int 5, Timestamp := ⟨0⟩ },
     { Namespace := ["b"], Tags := [], Data := .other "[]uint8", Timestamp := ⟨0⟩ }]
    ⟨"http://a/"⟩ rfl (congrArg (fun s => Except.ok (URL.mk s)) (by decide))
    ⟨{ Namespace := ["b"], Tags := [], Data := .other "[]uint8", Timestamp := ⟨0⟩ },
      by simp, rfl⟩).2.2.1

/-- C4 fails on the code: for the batch of a record without data, a string
record and one integer record, `Publish` returns no error and appends
three entries to the buffer, two of them nil pointers, for the single
numeric record. -/
theorem Publish_appends_nil_for_skipped_records (SetId : MetricData → MetricData) :
    (Publish
      (fun _ => .ok
        [{ Namespace := ["a"], Tags := [], Data := .nil, Timestamp := ⟨0⟩ },
         { Namespace := ["foo", "bar", "baz", "qux"], Tags := [], Data := .string "down",
           Timestamp := ⟨0⟩ },
         { Namespace := ["c"], Tags := [], Data := .int 5, Timestamp := ⟨0⟩ }])
      (fun _ => .ok ⟨"http://a/"⟩) SetId NewTsdbPool SnapGOBContentType []
      { tsdbUrl := "http://a/", apiKey := "k", interval := 10, orgId := 1, prefix_ := "" }).err
      = none ∧
    (Publish
      (fun _ => .ok
        [{ Namespace := ["a"], Tags := [], Data := .nil, Timestamp := ⟨0⟩ },
         { Namespace := ["foo", "bar", "baz", "qux"], Tags := [], Data := .string "down",
           Timestamp := ⟨0⟩ },
         { Namespace := ["c"], Tags := [], Data := .int 5, Timestamp := ⟨0⟩ }])
      (fun _ => .ok ⟨"http://a/"⟩) SetId NewTsdbPool SnapGOBContentType []
      { tsdbUrl := "http://a/", apiKey := "k", interval := 10, orgId := 1,
        prefix_ := "" }).pool.heap.map Tsdb.Metrics
      = [[none, none,
          some (SetId { Id := "", OrgId := 1, Name := "c", Interval := 10, Value := .ofInt 5,
                        Time := 0, TargetType := "gauge", Unit := "", Tags := [] })]] := by
  constructor <;> rfl

/-- C5 fails on the code for `uint`: the type switch has no `uint` case, so a
`uint` payload takes the default branch and `Publish` returns the
unknown-data-type error; every other listed type gives a value, the
conversion of the payload, with 1 for `true` and 0 for `false`. -/
theorem typeSwitch_uint_is_unknown (SetId : MetricData → MetricData) (i : Int) (n bits : Nat) :
    typeSwitch (.uint n) = .unknown "unknown data type: uint" ∧
    (Publish
      (fun _ => .ok [{ Namespace := ["a"], Tags := [], Data := .uint n, Timestamp := ⟨0⟩ }])
      (fun _ => .ok ⟨"http://a/"⟩) SetId NewTsdbPool SnapGOBContentType []
      { tsdbUrl := "http://a/", apiKey := "k", interval := 10, orgId := 1, prefix_ := "" }).err
      = some "unknown data type: uint" ∧
    typeSwitch (.int i) = .value (.ofInt i) ∧
    typeSwitch (.int8 i) = .value (.ofInt i) ∧
    typeSwitch (.int16 i) = .value (.ofInt i) ∧
    typeSwitch (.int32 i) = .value (.ofInt i) ∧
    typeSwitch (.int64 i) = .value (.ofInt i) ∧
    typeSwitch (.uint8 n) = .value (.ofInt n) ∧
    typeSwitch (.uint16 n) = .value (.ofInt n) ∧
    typeSwitch (.uint32 n) = .value (.ofInt n) ∧
    typeSwitch (.uint64 n) = .value (.ofInt n) ∧
    typeSwitch (.float32 bits) = .value (.ofFloat32 bits) ∧
    typeSwitch (.float64 bits) = .value (.ofBits bits) ∧
    typeSwitch (.bool true) = .value (.ofInt 1) ∧
    typeSwitch (.bool false) = .value (.ofInt 0) := by
  refine ⟨rfl, rfl, rfl, rfl, rfl, rfl, rfl, rfl, rfl, rfl, rfl, rfl, rfl, rfl, rfl⟩

/-- C1 fails on the code: the map key is the URL string followed by the API
key with nothing in between, so the destinations (`http://a/`, `b/c`) and
(`http://a/b/`, `c`) differ in both parts and still share the key
`http://a/b/c`; the second `Get` creates nothing and returns the
connection of the first, whose URL and API key are those of the first. -/
theorem Get_key_collision :
    (⟨"http://a/"⟩ : URL) ≠ ⟨"http://a/b/"⟩ ∧ ("b/c" : String) ≠ "c" ∧
    ((NewTsdbPool.Get ⟨"http://a/"⟩ "b/c").1.Get ⟨"http://a/b/"⟩ "c").2 =
      (NewTsdbPool.Get ⟨"http://a/"⟩ "b/c").2 ∧
    ((NewTsdbPool.Get ⟨"http://a/"⟩ "b/c").1.Get ⟨"http://a/b/"⟩ "c").1 =
      (NewTsdbPool.Get ⟨"http://a/"⟩ "b/c").1 ∧
    ((NewTsdbPool.Get ⟨"http://a/"⟩ "b/c").1.Get ⟨"http://a/b/"⟩ "c").1.heap =
      [NewTsdb ⟨"http://a/"⟩ "b/c"] := by
  decide

/-! ## Events -/

/-- The namespace shape `sendEvent` accepts: exactly four segments, the
first `worldping` and the second `event`. -/
theorem probeEvent_ok_iff (hostname : String) (now : Time) (orgId : Int)
    (m : Nat → MetricType) (s : String) (hs : (m 1).Data = .string s) :
    (∃ ev, probeEvent hostname now orgId m = .ok ev) ↔
      ∃ eventType severity, (m 0).Namespace = ["worldping", "event", eventType, severity] := by
  constructor
  · rintro ⟨ev, hev⟩
    unfold probeEvent at hev
    simp only [hs] at hev
    split_ifs at hev with h1 h2
    obtain ⟨a, b, c, d, hns⟩ : ∃ a b c d, (m 0).Namespace = [a, b, c, d] := by
      have h4 : (m 0).Namespace.length = 4 := by simpa using h1
      match hn : (m 0).Namespace, h4 with
      | [a, b, c, d], _ => exact ⟨a, b, c, d, rfl⟩
    rw [hns] at h2
    simp only [List.getD_cons_zero, List.getD_cons_succ, bne_iff_ne, ne_eq, Bool.or_eq_true,
      not_or, not_not, Bool.not_eq_true, decide_eq_true_eq] at h2
    exact ⟨c, d, by rw [hns, h2.1, h2.2]⟩
  · rintro ⟨c, d, hns⟩
    exact ⟨_, by simp [probeEvent, hns, hs]; rfl⟩

theorem probeEvent_string_cases (hostname : String) (now : Time) (orgId : Int)
    (m : Nat → MetricType) (s : String) (hs : (m 1).Data = .string s) :
    (∃ ev, probeEvent hostname now orgId m = .ok ev) ∨
    (∃ msg, probeEvent hostname now orgId m = .error (.warn msg)) := by
  unfold probeEvent
  simp only [hs]
  split_ifs
  · exact Or.inr ⟨_, rfl⟩
  · exact Or.inr ⟨_, rfl⟩
  · exact Or.inl ⟨_, rfl⟩

/-- On a batch without unsupported payloads the loop returns no error of its
own. -/
theorem publishLoop_supported (SetId : MetricData → MetricData) (cfg : Config) (tsdb : Nat)
    (ms : List MetricType) (hall : ∀ x ∈ ms, x.Data.unsupported = false) :
    ∀ (i : Nat) (st : LoopState), (publishLoop SetId cfg tsdb i ms st).err = st.err := by
  induction ms with
  | nil => intro i st; simp [publishLoop]
  | cons m ms ih =>
    intro i st
    have ih1 := ih (fun x hx => hall x (List.mem_cons_of_mem _ hx))
    have hm := hall m (List.mem_cons_self _ _)
    cases hsw : typeSwitch m.Data with
    | unknown e => simp [RawData.unsupported, hsw] at hm
    | skip =>
      simp only [publishLoop, hsw]
      exact ih1 (i + 1) { st with iterations := i + 1 }
    | event =>
      simp only [publishLoop, hsw]
      exact ih1 (i + 1)
        { st with
          spawned := st.spawned ++ [{ tsdb := tsdb, orgId := cfg.orgId, iteration := i }]
          iterations := i + 1 }
    | value v =>
      simp only [publishLoop, hsw]
      exact ih1 (i + 1)
        { st with
          metricsArray := st.metricsArray.set i (some (dataPoint SetId cfg m v))
          iterations := i + 1 }

/-- A decoded batch without unsupported payloads is published without
error, whatever the namespaces of its string records. -/
theorem Publish_supported (decode : Bytes → Except String (List MetricType))
    (Parse : String → Except String URL) (SetId : MetricData → MetricData)
    (p : TsdbPool) (content : Bytes) (cfg : Config)
    (metrics : List MetricType) (remoteUrl : URL)
    (hdec : decode content = .ok metrics)
    (hurl : Parse (remoteOf cfg) = .ok remoteUrl)
    (hall : ∀ x ∈ metrics, x.Data.unsupported = false) :
    (Publish decode Parse SetId p SnapGOBContentType content cfg).err = none := by
  have h1 := publishLoop_supported SetId cfg (p.Get remoteUrl cfg.apiKey).2 metrics hall 0
    { err := none, metricsArray := List.replicate metrics.length none, spawned := [],
      iterations := 0 }
  simp only [Publish, hdec, hurl, h1, if_true]
  cases (p.Get remoteUrl cfg.apiKey).1.heap.get? (p.Get remoteUrl cfg.apiKey).2 with
  | none => rfl
  | some t => rfl

/-- What `sendEvent` does with what its dereferences find: when the payload
found is a string (the event encoder succeeding, `PostData` failing on the
round trips `fails` and succeeding on the next), it posts if and only if
the namespace found is `[worldping, event, eventType, severity]`; it then
builds the event with that type and severity, the given `orgId`, the
payload found as message and the tags found, and posts its encoding to the
`events` sub-path until the post succeeds; for any other namespace it
posts nothing and returns after a warning. -/
theorem sendEvent_posts_iff_namespace
    (CreateProbeEventMsg : ProbeEvent → Int → Format → Except String Bytes)
    (hostname : String) (now : Time) (tsdb : Tsdb) (orgId : Int) (m : Nat → MetricType)
    (s : String) (fails : List HttpResult) (ok : HttpResult) (rest : List HttpResult)
    (hs : (m 1).Data = .string s)
    (henc : ∀ ev, ∃ body,
      CreateProbeEventMsg ev now.UnixNano Format.FormatProbeEventMsgp = .ok body)
    (hfail : ∀ r ∈ fails, ∀ body, (tsdb.PostData "events" body r).isSome = true)
    (hok : ∀ body, tsdb.PostData "events" body ok = none) :
    (posts (sendEvent CreateProbeEventMsg hostname now (fails ++ ok :: rest)
        tsdb orgId m).trace ≠ [] ↔
      ∃ eventType severity,
        (m 0).Namespace = ["worldping", "event", eventType, severity]) ∧
    (∀ eventType severity, (m 0).Namespace = ["worldping", "event", eventType, severity] →
      probeEvent hostname now orgId m = .ok
        { OrgId := orgId, EventType := eventType, Severity := severity, Source := hostname,
          Timestamp := now.UnixNano.tdiv 1000000, Message := s, Tags := (m 2).Tags } ∧
      ∃ body, CreateProbeEventMsg
          { OrgId := orgId, EventType := eventType, Severity := severity, Source := hostname,
            Timestamp := now.UnixNano.tdiv 1000000, Message := s, Tags := (m 2).Tags }
          now.UnixNano Format.FormatProbeEventMsgp = .ok body ∧
        posts (sendEvent CreateProbeEventMsg hostname now (fails ++ ok :: rest)
          tsdb orgId m).trace =
          List.replicate (fails.length + 1) (tsdb.request "events" body) ∧
        (sendEvent CreateProbeEventMsg hostname now (fails ++ ok :: rest)
          tsdb orgId m).returned = true) ∧
    ((¬ ∃ eventType severity,
        (m 0).Namespace = ["worldping", "event", eventType, severity]) →
      ∃ msg, sendEvent CreateProbeEventMsg hostname now (fails ++ ok :: rest) tsdb orgId m =
        { trace := [Effect.logWarn msg], returned := true, fault := false }) := by
  have hshape := probeEvent_ok_iff hostname now orgId m s hs
  have hgood : ∀ eventType severity,
      (m 0).Namespace = ["worldping", "event", eventType, severity] →
      probeEvent hostname now orgId m = .ok
        { OrgId := orgId, EventType := eventType, Severity := severity, Source := hostname,
          Timestamp := now.UnixNano.tdiv 1000000, Message := s, Tags := (m 2).Tags } ∧
      ∃ body, CreateProbeEventMsg
          { OrgId := orgId, EventType := eventType, Severity := severity, Source := hostname,
            Timestamp := now.UnixNano.tdiv 1000000, Message := s, Tags := (m 2).Tags }
          now.UnixNano Format.FormatProbeEventMsgp = .ok body ∧
        posts (sendEvent CreateProbeEventMsg hostname now (fails ++ ok :: rest)
          tsdb orgId m).trace =
          List.replicate (fails.length + 1) (tsdb.request "events" body) ∧
        (sendEvent CreateProbeEventMsg hostname now (fails ++ ok :: rest)
          tsdb orgId m).returned = true := by
    intro eventType severity hns
    have hpe : probeEvent hostname now orgId m = .ok
        { OrgId := orgId, EventType := eventType, Severity := severity, Source := hostname,
          Timestamp := now.UnixNano.tdiv 1000000, Message := s, Tags := (m 2).Tags } := by
      simp [probeEvent, hns, hs]
    obtain ⟨body, hbody⟩ := henc
      { OrgId := orgId, EventType := eventType, Severity := severity, Source := hostname,
        Timestamp := now.UnixNano.tdiv 1000000, Message := s, Tags := (m 2).Tags }
    have hloop := retryPost_fails_then_ok tsdb "events" body fails ok rest
      (fun r hr => hfail r hr body) (hok body)
    refine ⟨hpe, body, hbody, ?_, ?_⟩
    · simp only [sendEvent, hpe, hbody]
      exact hloop.2.1
    · simp only [sendEvent, hpe, hbody]
      exact hloop.1
  have hbad : (¬ ∃ eventType severity,
      (m 0).Namespace = ["worldping", "event", eventType, severity]) →
      ∃ msg, sendEvent CreateProbeEventMsg hostname now (fails ++ ok :: rest) tsdb orgId m =
        { trace := [Effect.logWarn msg], returned := true, fault := false } := by
    intro hno
    rcases probeEvent_string_cases hostname now orgId m s hs with hev | ⟨msg, hmsg⟩
    · exact absurd (hshape.mp hev) hno
    · exact ⟨msg, by simp only [sendEvent, hmsg]⟩
  refine ⟨⟨?_, ?_⟩, hgood, hbad⟩
  · intro hpost
    by_contra hno
    obtain ⟨msg, hmsg⟩ := hbad hno
    rw [hmsg] at hpost
    exact hpost rfl
  · rintro ⟨eventType, severity, hns⟩
    obtain ⟨_, body, _, hp, _⟩ := hgood eventType severity hns
    rw [hp]
    simp [List.replicate_succ]

/-- C7 fails on the code: `Publish` starts `go sendEvent(tsdb, orgId, &m)`
with the address of the one loop variable, and `sendEvent` reads the record
through that pointer when it runs. For the batch of the event record
`worldping.event.alert.critical` with payload `down` followed by a numeric
record, `Publish` returns no error after two iterations and one goroutine
started in iteration 0. Under the schedule in which that goroutine reads
after the loop has reached the second record, `sendEvent` finds a
one-segment namespace and returns after the warning: nothing is posted for
the event record. When the second record is numeric with a namespace
`worldping.event.x.y`, the type assertion `m.Data().(string)` faults. Only
when all three reads happen in iteration 0 is the event that of the record. -/
theorem sendEvent_reads_shared_loop_variable
    (SetId : MetricData → MetricData)
    (CreateProbeEventMsg : ProbeEvent → Int → Format → Except String Bytes)
    (hostname : String) (now : Time) (rs : List HttpResult) (tsdb : Tsdb) :
    (Publish
      (fun _ => .ok
        [{ Namespace := ["worldping", "event", "alert", "critical"], Tags := [],
           Data := .string "down", Timestamp := ⟨0⟩ },
         { Namespace := ["a"], Tags := [], Data := .int 5, Timestamp := ⟨0⟩ }])
      (fun _ => .ok ⟨"http://a/"⟩) SetId NewTsdbPool SnapGOBContentType []
      { tsdbUrl := "http://a/", apiKey := "k", interval := 10, orgId := 1, prefix_ := "" }).err
      = none ∧
    (Publish
      (fun _ => .ok
        [{ Namespace := ["worldping", "event", "alert", "critical"], Tags := [],
           Data := .string "down", Timestamp := ⟨0⟩ },
         { Namespace := ["a"], Tags := [], Data := .int 5, Timestamp := ⟨0⟩ }])
      (fun _ => .ok ⟨"http://a/"⟩) SetId NewTsdbPool SnapGOBContentType []
      { tsdbUrl := "http://a/", apiKey := "k", interval := 10, orgId := 1,
        prefix_ := "" }).spawned
      = [{ tsdb := 0, orgId := 1, iteration := 0 }] ∧
    (Publish
      (fun _ => .ok
        [{ Namespace := ["worldping", "event", "alert", "critical"], Tags := [],
           Data := .string "down", Timestamp := ⟨0⟩ },
         { Namespace := ["a"], Tags := [], Data := .int 5, Timestamp := ⟨0⟩ }])
      (fun _ => .ok ⟨"http://a/"⟩) SetId NewTsdbPool SnapGOBContentType []
      { tsdbUrl := "http://a/", apiKey := "k", interval := 10, orgId := 1,
        prefix_ := "" }).iterations
      = 2 ∧
    Spawn.sees { tsdb := 0, orgId := 1, iteration := 0 } 2 (fun _ => 1) = true ∧
    sendEvent CreateProbeEventMsg hostname now rs tsdb 1
      (derefs
        [{ Namespace := ["worldping", "event", "alert", "critical"], Tags := [],
           Data := .string "down", Timestamp := ⟨0⟩ },
         { Namespace := ["a"], Tags := [], Data := .int 5, Timestamp := ⟨0⟩ }]
        (fun _ => 1)) =
      { trace := [Effect.logWarn
          "dropping invalid event metric. Expected namesapce to be 4 fields."]
        returned := true, fault := false } ∧
    sendEvent CreateProbeEventMsg hostname now rs tsdb 1
      (derefs
        [{ Namespace := ["worldping", "event", "alert", "critical"], Tags := [],
           Data := .string "down", Timestamp := ⟨0⟩ },
         { Namespace := ["worldping", "event", "x", "y"], Tags := [], Data := .int 5,
           Timestamp := ⟨0⟩ }]
        (fun _ => 1)) =
      { trace := [], returned := false, fault := true } ∧
    Spawn.sees { tsdb := 0, orgId := 1, iteration := 0 } 2 (fun _ => 0) = true ∧
    probeEvent hostname now 1
      (derefs
        [{ Namespace := ["worldping", "event", "alert", "critical"], Tags := [],
           Data := .string "down", Timestamp := ⟨0⟩ },
         { Namespace := ["a"], Tags := [], Data := .int 5, Timestamp := ⟨0⟩ }]
        (fun _ => 0)) =
      .ok { OrgId := 1, EventType := "alert", Severity := "critical", Source := hostname,
            Timestamp := now.UnixNano.tdiv 1000000, Message := "down", Tags := [] } := by
  refine ⟨rfl, rfl, rfl, by decide, ?_, ?_, by decide, ?_⟩
  · simp [sendEvent, probeEvent, derefs, loopVar]
  · simp [sendEvent, probeEvent, derefs, loopVar]
  · simp [probeEvent, derefs, loopVar]

/-! ## Goroutines: `Close` and the size-triggered `Add` -/

theorem take_closeChan (t t1 : Tsdb) (now : Time) (ms : List (Option MetricData))
    (h : t.take now = some (t1, ms)) : t1.closeChan = t.closeChan := by
  unfold Tsdb.take at h
  split_ifs at h
  simp only [Option.some.injEq, Prod.mk.injEq] at h
  rw [← h.1]

/-- While `closeChan` is nil no step lets `Close` return or `Run` stop. -/
theorem step_closeChan_nil
    (CreateMsg : List (Option MetricData) → Int → Format → Except String Bytes)
    (s s1 : Sys) (a : Action) (hstep : step CreateMsg s a = some s1)
    (hinv : s.t.closeChan = Chan.nil ∧ s.closer ≠ some ClosePc.returned ∧
      s.runner ≠ RunPc.stopped) :
    s1.t.closeChan = Chan.nil ∧ s1.closer ≠ some ClosePc.returned ∧
      s1.runner ≠ RunPc.stopped := by
  obtain ⟨h1, h2, h3⟩ := hinv
  cases a with
  | addLock =>
    simp only [step] at hstep
    split at hstep
    · cases hstep; exact ⟨h1, h2, h3⟩
    · cases hstep
  | addAppend =>
    simp only [step] at hstep
    split at hstep
    · cases hstep; exact ⟨h1, h2, h3⟩
    · cases hstep
  | addSend =>
    simp only [step] at hstep
    split at hstep
    · cases hstep; exact ⟨h1, h2, by simp⟩
    · cases hstep
  | addUnlock =>
    simp only [step] at hstep
    split at hstep
    · cases hstep; exact ⟨h1, h2, h3⟩
    · cases hstep
  | closeSendTrigger =>
    simp only [step] at hstep
    split at hstep
    · cases hstep; exact ⟨h1, by simp, by simp⟩
    · cases hstep
  | closeSendClose =>
    simp only [step] at hstep
    split at hstep
    · rename_i hc
      rw [h1] at hc
      cases hc
    · cases hstep
  | tick =>
    simp only [step] at hstep
    split at hstep
    · cases hstep; exact ⟨h1, h2, by simp⟩
    · cases hstep
  | flushLock =>
    simp only [step] at hstep
    split at hstep
    · cases hstep; exact ⟨h1, h2, by simp⟩
    · cases hstep
  | flushTake now =>
    simp only [step] at hstep
    split at hstep
    · split at hstep
      · cases hstep; exact ⟨h1, h2, by simp⟩
      · rename_i t1 metrics htake
        have hc := take_closeChan s.t t1 now metrics htake
        split at hstep
        · cases hstep; exact ⟨by rw [← h1]; exact hc, h2, by simp⟩
        · cases hstep; exact ⟨by rw [← h1]; exact hc, h2, by simp⟩
    · cases hstep
  | postResult r =>
    simp only [step] at hstep
    split at hstep
    · split at hstep
      · cases hstep; exact ⟨h1, h2, h3⟩
      · cases hstep; exact ⟨h1, h2, by simp⟩
    · cases hstep

theorem run_closeChan_nil
    (CreateMsg : List (Option MetricData) → Int → Format → Except String Bytes)
    (as : List Action) : ∀ (s s1 : Sys), run CreateMsg s as = some s1 →
    (s.t.closeChan = Chan.nil ∧ s.closer ≠ some ClosePc.returned ∧
      s.runner ≠ RunPc.stopped) →
    s1.t.closeChan = Chan.nil ∧ s1.closer ≠ some ClosePc.returned ∧
      s1.runner ≠ RunPc.stopped := by
  induction as with
  | nil =>
    intro s s1 h hinv
    simp only [run, Option.some.injEq] at h
    rw [← h]
    exact hinv
  | cons a as ih =>
    intro s s1 h hinv
    simp only [run] at h
    cases hs : step CreateMsg s a with
    | none => rw [hs] at h; cases h
    | some s2 =>
      rw [hs] at h
      exact ih s2 s1 h (step_closeChan_nil CreateMsg s s2 a hs hinv)

/-- C8 fails on the code: `NewTsdb` never makes `closeChan`, so it is the nil
channel. From the moment a sweep calls `Close` on a connection created by
`NewTsdb`, whatever the goroutines do (`as`, with or without a caller inside
`Add`), no reachable state has `Close` returned or `Run` stopped: the send
`t.closeChan <- struct{}{}` is never enabled. -/
theorem Close_never_returns_on_NewTsdb
    (CreateMsg : List (Option MetricData) → Int → Format → Except String Bytes)
    (u : URL) (apiKey : String) (adder : Option (List (Option MetricData)))
    (as : List Action) (s : Sys)
    (hrun : run CreateMsg (Sys.start (NewTsdb u apiKey) adder true) as = some s) :
    (NewTsdb u apiKey).closeChan = Chan.nil ∧
    s.closer ≠ some ClosePc.returned ∧ s.runner ≠ RunPc.stopped ∧
    step CreateMsg s Action.closeSendClose = none := by
  have h := run_closeChan_nil CreateMsg as (Sys.start (NewTsdb u apiKey) adder true) s hrun
    ⟨rfl, by simp [Sys.start], by simp [Sys.start]⟩
  refine ⟨rfl, h.2.1, h.2.2, ?_⟩
  simp only [step, h.1]
  split
  · rename_i hc; cases hc
  · rfl

/-- C8, at a concrete run: `Close` hands the flush signal to `Run`, `Run`
finds the buffer empty and is back in its `select`, and `Close` stands at
the send on `closeChan`. -/
theorem Close_never_returns_on_NewTsdb_witness :
    run (fun _ _ _ => .ok []) (Sys.start (NewTsdb ⟨"http://a/"⟩ "k") none true)
      [Action.closeSendTrigger, Action.flushLock, Action.flushTake ⟨0⟩] =
      some { t := NewTsdb ⟨"http://a/"⟩ "k", mu := none, adder := none,
             closer := some ClosePc.sendClose, runner := RunPc.select } ∧
    step (fun _ _ _ => .ok [])
      { t := NewTsdb ⟨"http://a/"⟩ "k", mu := none, adder := none,
        closer := some ClosePc.sendClose, runner := RunPc.select }
      Action.closeSendClose = none :=
  ⟨rfl, (Close_never_returns_on_NewTsdb (fun _ _ _ => .ok []) ⟨"http://a/"⟩ "k" none
    [Action.closeSendTrigger, Action.flushLock, Action.flushTake ⟨0⟩]
    { t := NewTsdb ⟨"http://a/"⟩ "k", mu := none, adder := none,
      closer := some ClosePc.sendClose, runner := RunPc.select } rfl).2.2.2⟩

/-- C10 fails on the code: a caller of `Add` whose append takes the buffer
above 3000 holds the mutex and stands at the send on `triggerFlush`; if the
`select` of `Run` takes a tick first, `Run` stands at `t.Lock()` of `Flush`.
That state is reachable in three steps, and in it no step is enabled:
`Add` is blocked on the send while `Run` is blocked on the lock. -/
theorem Add_send_deadlocks_with_tick
    (CreateMsg : List (Option MetricData) → Int → Format → Except String Bytes)
    (t : Tsdb) (ps : List (Option MetricData))
    (hlen : t.Metrics.length + ps.length > 3000) :
    run CreateMsg (Sys.start t (some ps) false)
      [Action.addLock, Action.addAppend, Action.tick] =
      some { t := { t with Metrics := t.Metrics ++ ps }
             mu := some Holder.adder
             adder := some (AddPc.send, ps)
             closer := none
             runner := RunPc.flushLock } ∧
    ∀ a, step CreateMsg
      { t := { t with Metrics := t.Metrics ++ ps }
        mu := some Holder.adder
        adder := some (AddPc.send, ps)
        closer := none
        runner := RunPc.flushLock } a = none := by
  constructor
  · simp [run, step, Sys.start, Tsdb.Add, maxMetricsPerPayload, hlen]
  · intro a
    cases a <;> rfl

/-- C10, at a concrete input: 3001 entries added to the empty buffer of a
new connection; neither the send of `Add` nor the `Lock` of `Flush` is
enabled in the state reached. -/
theorem Add_send_deadlocks_with_tick_witness :
    step (fun _ _ _ => .ok [])
      { t := { NewTsdb ⟨"http://a/"⟩ "k" with
               Metrics := (NewTsdb ⟨"http://a/"⟩ "k").Metrics ++ List.replicate 3001 none }
        mu := some Holder.adder
        adder := some (AddPc.send, List.replicate 3001 none)
        closer := none
        runner := RunPc.flushLock } Action.addSend = none ∧
    step (fun _ _ _ => .ok [])
      { t := { NewTsdb ⟨"http://a/"⟩ "k" with
               Metrics := (NewTsdb ⟨"http://a/"⟩ "k").Metrics ++ List.replicate 3001 none }
        mu := some Holder.adder
        adder := some (AddPc.send, List.replicate 3001 none)
        closer := none
        runner := RunPc.flushLock } Action.flushLock = none :=
  ⟨(Add_send_deadlocks_with_tick (fun _ _ _ => .ok []) (NewTsdb ⟨"http://a/"⟩ "k")
      (List.replicate 3001 none)
      (by simp only [NewTsdb, List.length_nil, List.length_replicate]; omega)).2 Action.addSend,
    (Add_send_deadlocks_with_tick (fun _ _ _ => .ok []) (NewTsdb ⟨"http://a/"⟩ "k")
      (List.replicate 3001 none)
      (by simp only [NewTsdb, List.length_nil, List.length_replicate]; omega)).2
      Action.flushLock⟩

/-! ## Pool lookups -/

theorem lookup_mem (l : List (String × Nat)) (k : String) (c : Nat)
    (h : l.lookup k = some c) : (k, c) ∈ l := by
  induction l with
  | nil => simp [List.lookup] at h
  | cons e l ih =>
    obtain ⟨k1, c1⟩ := e
    by_cases hk : k = k1
    · subst hk
      simp only [List.lookup_cons, beq_self_eq_true, Option.some.injEq] at h
      subst h
      exact List.mem_cons_self _ _
    · have hb : (k == k1) = false := by simpa using hk
      simp only [List.lookup_cons, hb] at h
      exact List.mem_cons_of_mem _ (ih h)

theorem nodup_snd_key (l : List (String × Nat)) (hnd : (l.map Prod.snd).Nodup)
    (k1 k2 : String) (c : Nat) (h1 : (k1, c) ∈ l) (h2 : (k2, c) ∈ l) : k1 = k2 := by
  induction l with
  | nil => exact absurd h1 (List.not_mem_nil _)
  | cons e l ih =>
    simp only [List.map_cons, List.nodup_cons, List.mem_map, not_exists, not_and] at hnd
    rcases List.mem_cons.mp h1 with e1 | m1 <;> rcases List.mem_cons.mp h2 with e2 | m2
    · rw [← e2] at e1
      exact (Prod.mk.inj e1).1
    · exact absurd (by rw [← e1]) (hnd.1 (k2, c) m2)
    · exact absurd (by rw [← e2]) (hnd.1 (k1, c) m1)
    · exact ih hnd.2 m1 m2

theorem NewTsdbPool_wf : NewTsdbPool.wf := by
  constructor
  · intro k c h
    exact absurd h (List.not_mem_nil _)
  · exact List.nodup_nil

theorem Get_wf (p : TsdbPool) (u : URL) (apiKey : String) (hwf : p.wf) :
    (p.Get u apiKey).1.wf := by
  cases hl : p.Pool.lookup (u.String ++ apiKey) with
  | some c => rw [Get_of_lookup_some p u apiKey c hl]; exact hwf
  | none =>
    rw [Get_of_lookup_none p u apiKey hl]
    constructor
    · intro k c hmem
      simp only [List.length_append, List.length_singleton]
      rcases List.mem_cons.mp hmem with e | m
      · rw [(Prod.mk.inj e).2]
        omega
      · have := hwf.1 k c m
        omega
    · simp only [List.map_cons, List.nodup_cons, List.mem_map, not_exists, not_and]
      refine ⟨?_, hwf.2⟩
      rintro ⟨k, c⟩ hmem heq
      have := hwf.1 k c hmem
      simp only at heq
      omega

/-- With no sweep in between, two lookups return the same connection exactly
when the two map keys, URL string followed by API key, are equal. -/
theorem Get_same_iff_key (p : TsdbPool) (hwf : p.wf) (u1 u2 : URL) (k1 k2 : String) :
    ((p.Get u1 k1).1.Get u2 k2).2 = (p.Get u1 k1).2 ↔
      u2.String ++ k2 = u1.String ++ k1 := by
  cases hl1 : p.Pool.lookup (u1.String ++ k1) with
  | some c1 =>
    rw [Get_of_lookup_some p u1 k1 c1 hl1]
    have hm1 := lookup_mem _ _ _ hl1
    cases hl2 : p.Pool.lookup (u2.String ++ k2) with
    | some c2 =>
      rw [Get_of_lookup_some p u2 k2 c2 hl2]
      have hm2 := lookup_mem _ _ _ hl2
      constructor
      · intro h
        simp only at h
        subst h
        exact nodup_snd_key p.Pool hwf.2 _ _ _ hm2 hm1
      · intro h
        rw [h, hl1] at hl2
        simp only [Option.some.injEq] at hl2
        exact hl2.symm
    | none =>
      rw [Get_of_lookup_none p u2 k2 hl2]
      have hlt := hwf.1 _ _ hm1
      constructor
      · intro h
        simp only at h
        omega
      · intro h
        rw [h, hl1] at hl2
        cases hl2
  | none =>
    rw [Get_of_lookup_none p u1 k1 hl1]
    by_cases hk : u2.String ++ k2 = u1.String ++ k1
    · have hl2 : List.lookup (u2.String ++ k2)
          ((u1.String ++ k1, p.heap.length) :: p.Pool) = some p.heap.length := by
        simp [List.lookup_cons, hk]
      rw [Get_of_lookup_some _ u2 k2 p.heap.length hl2]
      exact ⟨fun _ => hk, fun _ => rfl⟩
    · have hb : (u2.String ++ k2 == u1.String ++ k1) = false := by simpa using hk
      cases hl2 : p.Pool.lookup (u2.String ++ k2) with
      | some c2 =>
        have hl3 : List.lookup (u2.String ++ k2)
            ((u1.String ++ k1, p.heap.length) :: p.Pool) = some c2 := by
          simp only [List.lookup_cons, hb, hl2]
        rw [Get_of_lookup_some _ u2 k2 c2 hl3]
        have hlt := hwf.1 _ _ (lookup_mem _ _ _ hl2)
        constructor
        · intro h
          simp only at h
          omega
        · intro h
          exact absurd h hk
      | none =>
        have hl3 : List.lookup (u2.String ++ k2)
            ((u1.String ++ k1, p.heap.length) :: p.Pool) = none := by
          simp only [List.lookup_cons, hb, hl2]
        rw [Get_of_lookup_none _ u2 k2 hl3]
        constructor
        · intro h
          simp only [List.length_append, List.length_singleton] at h
          omega
        · intro h
          exact absurd h hk

/-- The same destination gives the one existing connection and leaves the
pool as it is; the same URL with another API key gives another connection. -/
theorem Get_same_url (p : TsdbPool) (hwf : p.wf) (u : URL) (k1 k2 : String) :
    ((p.Get u k1).1.Get u k1) = ((p.Get u k1).1, (p.Get u k1).2) ∧
    (((p.Get u k1).1.Get u k2).2 = (p.Get u k1).2 ↔ k2 = k1) := by
  constructor
  · cases hl1 : p.Pool.lookup (u.String ++ k1) with
    | some c1 =>
      rw [Get_of_lookup_some p u k1 c1 hl1]
      exact Get_of_lookup_some p u k1 c1 hl1
    | none =>
      rw [Get_of_lookup_none p u k1 hl1]
      exact Get_of_lookup_some _ u k1 _ (by simp [List.lookup_cons])
  · rw [Get_same_iff_key p hwf u u k1 k2]
    constructor
    · intro h
      have h1 := congrArg String.data h
      simp only [String.data_append] at h1
      exact String.ext (List.append_cancel_left h1)
    · intro h
      rw [h]

end Hostedtsdb
